import Mathlib

/-!
Shallow embedding of the recommendation/scoring core of the repository:
`api/matchup_calculator.py`, `api/lolalytics_scraper.py`, `api/recommender.py`.

Modelling conventions:
* Python floats are modelled as rationals; Python `round(x, n)` is modelled as
  round-half-to-even on the exact rational.
* Python dicts are modelled as insertion-ordered association lists (where key
  iteration order matters) or as total functions with the defaultdict default.
* The global matchup table returned by `load_matchup_data()` and the payload
  fetched by `fetch_champion_data` are passed to the scorers as explicit
  parameters; the recommender receives its three lolalytics helpers as an
  explicit record of oracles.
* ASCII lowercasing stands for `str.lower` (the code only lowercases ASCII
  champion, role and mode names).
-/

/-- ASCII lowercasing of one character, as Python `str.lower` acts on ASCII. -/
def lowerChar (c : Char) : Char :=
  if 65 ≤ c.toNat ∧ c.toNat ≤ 90 then Char.ofNat (c.toNat + 32) else c

/-- ASCII lowercasing of a string, modelling `str.lower`. -/
def lowerStr (s : String) : String := ⟨s.data.map lowerChar⟩

/-- Python `s.startswith(pre)`, computed structurally on the character data. -/
def pyStartsWith (s pre : String) : Bool := pre.data.isPrefixOf s.data

/-- Round half to even on an exact rational: the tie-breaking rule of Python
`round`. -/
def roundHalfEven (q : ℚ) : ℤ :=
  if q - ⌊q⌋ < 1/2 then ⌊q⌋
  else if 1/2 < q - ⌊q⌋ then ⌊q⌋ + 1
  else if 2 ∣ ⌊q⌋ then ⌊q⌋ else ⌊q⌋ + 1

/-- Python `round(x, 1)` on an exact rational. -/
def round1 (q : ℚ) : ℚ := (roundHalfEven (q * 10) : ℚ) / 10

/-- Python `round(x, 3)` on an exact rational. -/
def round3 (q : ℚ) : ℚ := (roundHalfEven (q * 1000) : ℚ) / 1000

namespace MatchupCalculator

/-- The `role_map` dict of `get_counter_score` / `get_blindpick_score`
(matchup_calculator lines 159-171), as a lookup function. -/
def role_map_get (s : String) : Option String :=
  if s = "top" then some "top"
  else if s = "jng" then some "jng"
  else if s = "jungle" then some "jng"
  else if s = "mid" then some "mid"
  else if s = "middle" then some "mid"
  else if s = "bot" then some "bot"
  else if s = "adc" then some "bot"
  else if s = "bottom" then some "bot"
  else if s = "sup" then some "sup"
  else if s = "support" then some "sup"
  else if s = "utility" then some "sup"
  else none

/-- `role_map.get(role.lower(), role.lower())` (matchup_calculator line 172). -/
def normRole (role : String) : String :=
  (role_map_get (lowerStr role)).getD (lowerStr role)

/-- One record of the built matchup table. -/
structure MatchupRec where
  wins : Nat
  games : Nat
  winrate : ℚ
deriving DecidableEq

/-- The matchup table as consumed by the scorers: insertion-ordered mapping
from champion keys to the (flattened) `vs` dict. -/
abbrev Table := List (String × List (String × MatchupRec))

/-- Key lookup with the startswith fallback (matchup_calculator lines 176-183
and 239-245): use the exact key when present, else the first key in insertion
order that starts with `champion + "_"`, else absent. -/
def lookupProfile (table : Table) (champion key : String) :
    Option (List (String × MatchupRec)) :=
  match table.find? (fun p => p.1 == key) with
  | some p => some p.2
  | none => (table.find? (fun p => pyStartsWith p.1 (champion ++ "_"))).map Prod.snd

/-- The winrates accumulated by the enemy loop of `get_counter_score` (lines
193-199): for each enemy, the first `vs` entry whose key starts with
`enemy + "_"`; an enemy with no such entry is skipped. -/
def matchedWinrates (vs : List (String × MatchupRec)) (enemies : List String) :
    List ℚ :=
  enemies.filterMap
    (fun e => (vs.find? (fun p => pyStartsWith p.1 (e ++ "_"))).map
      (fun p => p.2.winrate))

/-- `matchup_calculator.get_counter_score`, with the table passed explicitly in
place of the `load_matchup_data()` global. -/
def get_counter_score (table : Table) (champion role : String)
    (enemies : List String) : ℚ :=
  if enemies = [] then 50
  else
    match lookupProfile table champion (champion ++ "_" ++ normRole role) with
    | none => 50
    | some vs =>
      if vs = [] then 50
      else
        let ws := matchedWinrates vs enemies
        if ws.length = 0 then 50
        else max 0 (min 100 ((ws.sum / ws.length - 45) * 10))

/-- `matchup_calculator.get_blindpick_score`, with the table passed
explicitly. -/
def get_blindpick_score (table : Table) (champion role : String) : ℚ :=
  match lookupProfile table champion (champion ++ "_" ++ normRole role) with
  | none => 50
  | some vs =>
    if vs = [] then 60
    else
      let hard := vs.countP (fun p => decide (p.2.winrate < 45))
      let soft := vs.countP (fun p => decide (45 ≤ p.2.winrate ∧ p.2.winrate < 48))
      let fav := vs.countP (fun p => decide (52 < p.2.winrate))
      max 0 (min 100 ((70 : ℚ) - hard * 10 - soft * 3 + fav * 2))

/-- One parsed pick of a roster (name and role parts of a `name.role` cell). -/
structure Pick where
  name : String
  role : String
deriving DecidableEq

/-- A parsed two-row game of the dataset: the two rosters and whether team 1
won (`result == 1`). -/
structure Game where
  team1 : List Pick
  team2 : List Pick
  team1Won : Bool

/-- The string key `f"{name}_{role}"` used by the aggregation loops. -/
def pkey (p : Pick) : String := p.name ++ "_" ++ p.role

/-- A raw wins/games counter of the aggregation pass. -/
structure RawStats where
  wins : Nat
  games : Nat
deriving DecidableEq

/-- The nested defaultdict of counters, viewed as a total function on ordered
key pairs with default `{wins: 0, games: 0}`. -/
abbrev RawTable := String × String → RawStats

/-- One `matchups[key][vs_key]` update: games += 1, wins += 1 when won. -/
def bumpPair (t : RawTable) (k : String × String) (won : Bool) : RawTable :=
  fun k' =>
    if k' = k then ⟨(t k).wins + (if won then 1 else 0), (t k).games + 1⟩
    else t k'

/-- Inner aggregation loop: one own pick against every opposing pick. -/
def vsTeam (t : RawTable) (me : Pick) (opps : List Pick) (won : Bool) :
    RawTable :=
  opps.foldl (fun acc opp => bumpPair acc (pkey me, pkey opp) won) t

/-- Outer aggregation loop: every own pick against every opposing pick. -/
def teamVsTeam (t : RawTable) (team opps : List Pick) (won : Bool) : RawTable :=
  team.foldl (fun acc me => vsTeam acc me opps won) t

/-- Lines 96-113 of matchup_calculator: both perspectives of one game, the
win flag inverted for the second team. -/
def processGame (t : RawTable) (g : Game) : RawTable :=
  teamVsTeam (teamVsTeam t g.team1 g.team2 g.team1Won) g.team2 g.team1
    (!g.team1Won)

/-- The full aggregation pass of `load_matchup_data` over the parsed games. -/
def buildRaw (gs : List Game) : RawTable :=
  gs.foldl processGame (fun _ => ⟨0, 0⟩)

/-- Lines 115-126: keep pairs with at least 5 games; the winrate is
`round(wins / games * 100, 1)`. The nested result dict is viewed as a partial
map on ordered (key, vs_key) pairs. -/
def buildTable (gs : List Game) (k : String × String) : Option MatchupRec :=
  let s := buildRaw gs k
  if 5 ≤ s.games then
    some ⟨s.wins, s.games, round1 ((s.wins : ℚ) / s.games * 100)⟩
  else none

/-- Number of picks of a roster whose key string is `s`. -/
def cnt (l : List Pick) (s : String) : Nat := l.countP (fun p => pkey p == s)

/-- Observations one game contributes to the ordered pair `k` across the two
aggregation loops. -/
def gameObs (g : Game) (k : String × String) : Nat :=
  cnt g.team1 k.1 * cnt g.team2 k.2 + cnt g.team2 k.1 * cnt g.team1 k.2

/-- Wins one game contributes to the ordered pair `k`. -/
def gameWins (g : Game) (k : String × String) : Nat :=
  (if g.team1Won then cnt g.team1 k.1 * cnt g.team2 k.2 else 0) +
  (if g.team1Won then 0 else cnt g.team2 k.1 * cnt g.team1 k.2)

/-- Total observed games of the ordered pair `k` over the dataset. -/
def obsGames (gs : List Game) (k : String × String) : Nat :=
  (gs.map (gameObs · k)).sum

/-- Total observed wins of the ordered pair `k` over the dataset. -/
def obsWins (gs : List Game) (k : String × String) : Nat :=
  (gs.map (gameWins · k)).sum

end MatchupCalculator

namespace Scraper

/-- The `ROLE_MAP` dict of lolalytics_scraper lines 15-26, as a lookup
function; note it has no "utility" key. -/
def ROLE_MAP_get (s : String) : Option String :=
  if s = "top" then some "top"
  else if s = "jng" then some "jungle"
  else if s = "jungle" then some "jungle"
  else if s = "mid" then some "middle"
  else if s = "middle" then some "middle"
  else if s = "bot" then some "bottom"
  else if s = "adc" then some "bottom"
  else if s = "bottom" then some "bottom"
  else if s = "sup" then some "support"
  else if s = "support" then some "support"
  else none

/-- `ROLE_MAP.get(role.lower(), role.lower())` (lolalytics_scraper line 106). -/
def normRole (role : String) : String :=
  (ROLE_MAP_get (lowerStr role)).getD (lowerStr role)

/-- One matchup entry as parsed from the provider payload. -/
structure MEntry where
  champion : String
  winrate : ℚ
  games : Nat
deriving DecidableEq

/-- The champion data shape returned by `fetch_champion_data`. -/
structure ChampData where
  counters : List MEntry
  weak_against : List MEntry
  winrate : ℚ
  pickrate : ℚ
  banrate : ℚ
  games : Nat
deriving DecidableEq

/-- A Python dict built by comprehension from a list: a later entry with the
same key overwrites an earlier one, so lookup takes the last match. -/
def pyDictGet (l : List (String × ℚ)) (k : String) : Option ℚ :=
  (l.reverse.find? (fun p => p.1 == k)).map Prod.snd

/-- The per-enemy winrate lookup of `LolalyticsScraper.get_counter_score`
(lines 255-269): counters dict first, then weak_against dict, with all
champion names lowercased. -/
def lookupWr (data : ChampData) (e : String) : Option ℚ :=
  match pyDictGet (data.counters.map (fun m => (lowerStr m.champion, m.winrate)))
      (lowerStr e) with
  | some w => some w
  | none =>
    pyDictGet (data.weak_against.map (fun m => (lowerStr m.champion, m.winrate)))
      (lowerStr e)

/-- `LolalyticsScraper.get_counter_score`, with the fetched data passed
explicitly in place of the `fetch_champion_data` call. -/
def get_counter_score (data : ChampData) (enemies : List String) : ℚ :=
  if enemies = [] then 50
  else if data.games = 0 then 50
  else
    let contribs := enemies.map (fun e => (lookupWr data e).getD 50)
    if contribs.length = 0 then 50
    else max 0 (min 100 ((contribs.sum / contribs.length - 45) * 10))

/-- `LolalyticsScraper.get_blindpick_score`, with the fetched data passed
explicitly. -/
def get_blindpick_score (data : ChampData) : ℚ :=
  if data.games = 0 then 50
  else if data.weak_against = [] then 75
  else
    let hard := data.weak_against.countP (fun m => decide (m.winrate < 45))
    let soft := data.weak_against.countP
      (fun m => decide (45 ≤ m.winrate ∧ m.winrate < 48))
    let bonus : ℚ := max 0 ((data.winrate - 50) * 2)
    max 0 (min 100 (70 - ((hard : ℚ) * 12 + (soft : ℚ) * 4) + bonus))

end Scraper

namespace Recommender

/-- `recommender.calculate_tier`; the unused `pickrate` parameter of the
source is kept. -/
def calculate_tier (winrate : ℚ) (_pickrate : ℚ) : String :=
  if 53 ≤ winrate then "S"
  else if 51 ≤ winrate then "A"
  else if 49 ≤ winrate then "B"
  else if 47 ≤ winrate then "C"
  else "D"

/-- One proficiency record as read from the mastery list. -/
structure Mastery where
  champion_name : String
  champion_level : Nat
  champion_points : Nat
deriving DecidableEq

/-- The stats shape consumed from `get_champion_stats`. -/
structure Stats where
  winrate : ℚ
  pickrate : ℚ
  games : Nat
deriving DecidableEq

/-- The three lolalytics helper functions used by `get_recommendations`,
passed explicitly. -/
structure Oracles where
  stats : String → String → Stats
  counter : String → String → List String → ℚ
  blind : String → String → ℚ

/-- One recommendation dict of the output list. In `reason`, the emoji and
the numeric interpolation of the f-strings are elided; the conditions and the
joining are kept. -/
structure RecItem where
  champion : String
  role : String
  score : ℚ
  winrate : ℚ
  pickrate : ℚ
  tier : String
  mastery_level : Nat
  mastery_points : Nat
  counter_score : ℚ
  blindpick_score : Option ℚ
  games_in_meta : Nat
  reason : String
  mode : String
deriving DecidableEq

/-- Lines 90-102 of recommender: mode-dependent reassignment of the three
weights (mastery, meta, counter), starting from the passed-in values. -/
def selectWeights (mode : String) (enemiesNonempty : Bool) (mw mew cw : ℚ) :
    ℚ × ℚ × ℚ :=
  if mode = "counter" ∧ enemiesNonempty = true then (0.15, 0.20, 0.65)
  else if mode = "blind" then (0.25, 0.45, 0.30)
  else if mode = "comfort" then (0.55, 0.25, 0.20)
  else (mw, mew, cw)

/-- Lines 114-115: the mastery-points normalization constant. Python `max`
over a nonempty list of naturals equals the fold of `Nat.max` from 0. -/
def recMaxPoints (ms : List Mastery) : Nat :=
  let mp := if ms.isEmpty then 1
    else (ms.map Mastery.champion_points).foldl Nat.max 0
  max mp 1

/-- The loop body of `get_recommendations` (lines 120-232); `none` models
`continue`. -/
def scoreOne (o : Oracles) (role : String) (mw mew cw min_pickrate : ℚ)
    (excluded : List String) (max_points : Nat) (enemies : List String)
    (mode : String) (m : Mastery) : Option RecItem :=
  if m.champion_name = "" then none
  else if lowerStr m.champion_name ∈ excluded then none
  else
    let stats := o.stats m.champion_name role
    if stats.pickrate < min_pickrate then none
    else
      let winrate := stats.winrate
      let meta_score := max 0 (min 1 ((winrate - 45) / 15))
      let tier := calculate_tier winrate 5
      let mastery_score : ℚ :=
        if 0 < m.champion_level then
          min ((m.champion_level : ℚ) / 10) 0.7 +
            ((m.champion_points : ℚ) / max_points) * 0.3
        else 0
      let pair :=
        if mode = "blind" ∨ enemies = [] then
          let b := o.blind m.champion_name role / 100
          (b, b)
        else (o.counter m.champion_name role enemies / 100, (1/2 : ℚ))
      let counter_v := pair.1
      let blind_v := pair.2
      let base :=
        if mode = "blind" then
          meta_score * mew + mastery_score * mw + blind_v * cw
        else meta_score * mew + mastery_score * mw + counter_v * cw
      let base :=
        if 5 ≤ m.champion_level ∧ 51 ≤ winrate then base * 1.10 else base
      let final_score :=
        if 0.7 ≤ counter_v ∧ enemies ≠ [] then base * 1.15 else base
      let reasons : List String :=
        (if enemies ≠ [] ∧ 0.6 ≤ counter_v then
          ["Counter vs " ++ String.intercalate ", " (enemies.take 2)]
        else if mode = "blind" ∧ 0.7 ≤ blind_v then ["Safe blind pick"]
        else []) ++
        (if tier = "S" ∨ tier = "A" then ["Tier " ++ tier] else []) ++
        (if 52 ≤ winrate then ["WR"] else []) ++
        (if 7 ≤ m.champion_level then ["M" ++ toString m.champion_level]
         else if 5 ≤ m.champion_level then ["M" ++ toString m.champion_level]
         else [])
      let reasons := if reasons = [] then ["Pick solide"] else reasons
      some {
        champion := m.champion_name
        role := role
        score := round3 final_score
        winrate := round1 winrate
        pickrate := 0
        tier := tier
        mastery_level := m.champion_level
        mastery_points := m.champion_points
        counter_score := round1 (counter_v * 100)
        blindpick_score :=
          if mode = "blind" then some (round1 (blind_v * 100)) else none
        games_in_meta := stats.games
        reason := String.intercalate " • " reasons
        mode := mode }

/-- `recommender.get_recommendations` with the lolalytics helpers passed as
oracles. `None` for the role is modelled by the empty string and `None` for
the champion lists by the empty list, matching the truthiness tests of the
source; the sort is the stable descending sort of `list.sort(reverse=True)`. -/
def get_recommendations (o : Oracles) (masteries : List Mastery) (role : String)
    (top_n : Nat) (mastery_weight meta_weight counter_weight min_pickrate : ℚ)
    (enemy_champions ally_champions banned_champions : List String)
    (mode : String) : List RecItem :=
  if masteries = [] then []
  else if role = "" then []
  else
    let w := selectWeights mode (!enemy_champions.isEmpty)
      mastery_weight meta_weight counter_weight
    let excluded :=
      (enemy_champions ++ ally_champions ++ banned_champions).map lowerStr
    let max_points := recMaxPoints masteries
    let recs := (masteries.take 30).filterMap
      (scoreOne o role w.1 w.2.1 w.2.2 min_pickrate excluded max_points
        enemy_champions mode)
    (List.insertionSort (fun a b => b.score ≤ a.score) recs).take top_n

end Recommender

/-! Theorems. -/

/-- C9 (confirmed): the tier classifier is a pure total function thresholding
the winrate percentage at 53/51/49/47 into S/A/B/C/D, with the stated
boundary values. -/
theorem c9_tier_thresholds :
    (∀ w : ℚ,
      (53 ≤ w → Recommender.calculate_tier w 5 = "S") ∧
      (51 ≤ w ∧ w < 53 → Recommender.calculate_tier w 5 = "A") ∧
      (49 ≤ w ∧ w < 51 → Recommender.calculate_tier w 5 = "B") ∧
      (47 ≤ w ∧ w < 49 → Recommender.calculate_tier w 5 = "C") ∧
      (w < 47 → Recommender.calculate_tier w 5 = "D")) ∧
    Recommender.calculate_tier 53 5 = "S" ∧
    Recommender.calculate_tier 52.99 5 = "A" ∧
    Recommender.calculate_tier 51 5 = "A" ∧
    Recommender.calculate_tier 50.99 5 = "B" ∧
    Recommender.calculate_tier 49 5 = "B" ∧
    Recommender.calculate_tier 48.99 5 = "C" ∧
    Recommender.calculate_tier 47 5 = "C" ∧
    Recommender.calculate_tier 46.99 5 = "D" := by
  constructor
  · intro w
    unfold Recommender.calculate_tier
    refine ⟨?_, ?_, ?_, ?_, ?_⟩ <;> intro h <;>
      split_ifs with h1 h2 h3 h4 <;> first
        | rfl
        | (exfalso; rcases h with ⟨ha, hb⟩ <;> linarith)
        | (exfalso; linarith)
  · refine ⟨?_, ?_, ?_, ?_, ?_, ?_, ?_, ?_⟩ <;>
      norm_num [Recommender.calculate_tier]

/-- C9 witness: the threshold theorem applied at winrate 53. -/
theorem c9_tier_thresholds_witness : Recommender.calculate_tier 53 5 = "S" :=
  (c9_tier_thresholds.1 53).1 (by norm_num)

/-- C6 (confirmed): the engine weight triples per mode, with defaults
(0.25, 0.30, 0.45): counter with enemies (0.15, 0.20, 0.65), blind
(0.25, 0.45, 0.30), comfort (0.55, 0.25, 0.20); balanced, counter without
enemies, and any unrecognized mode keep the balanced triple; every resulting
triple sums to 1. -/
theorem c6_mode_weights :
    Recommender.selectWeights "counter" true 0.25 0.30 0.45 = (0.15, 0.20, 0.65) ∧
    (∀ b, Recommender.selectWeights "blind" b 0.25 0.30 0.45 = (0.25, 0.45, 0.30)) ∧
    (∀ b, Recommender.selectWeights "comfort" b 0.25 0.30 0.45 = (0.55, 0.25, 0.20)) ∧
    (∀ b, Recommender.selectWeights "balanced" b 0.25 0.30 0.45 = (0.25, 0.30, 0.45)) ∧
    Recommender.selectWeights "counter" false 0.25 0.30 0.45 = (0.25, 0.30, 0.45) ∧
    (∀ mode b, mode ≠ "counter" → mode ≠ "blind" → mode ≠ "comfort" →
      Recommender.selectWeights mode b 0.25 0.30 0.45 = (0.25, 0.30, 0.45)) ∧
    (∀ mode b,
      (Recommender.selectWeights mode b 0.25 0.30 0.45).1 +
      (Recommender.selectWeights mode b 0.25 0.30 0.45).2.1 +
      (Recommender.selectWeights mode b 0.25 0.30 0.45).2.2 = 1) := by
  refine ⟨by simp +decide [Recommender.selectWeights],
    fun b => by simp +decide [Recommender.selectWeights],
    fun b => by simp +decide [Recommender.selectWeights],
    fun b => by simp +decide [Recommender.selectWeights],
    by simp +decide [Recommender.selectWeights], ?_, ?_⟩
  · intro mode b h1 h2 h3
    unfold Recommender.selectWeights
    split_ifs with g1 g2 g3 <;> first
      | rfl
      | (exact absurd g1.1 h1) | (exact absurd g2 h2) | (exact absurd g3 h3)
  · intro mode b
    unfold Recommender.selectWeights
    split_ifs <;> norm_num

/-- C6 witness: an unrecognized mode keeps the balanced weights. -/
theorem c6_mode_weights_witness :
    Recommender.selectWeights "chaos" true 0.25 0.30 0.45 = (0.25, 0.30, 0.45) :=
  c6_mode_weights.2.2.2.2.2.1 "chaos" true (by decide) (by decide) (by decide)

/-- C3 counterexample: the claim fails on the code. The provider role map has
no utility entry (so "utility" maps to itself, not "support"), and an
unrecognized string maps to its lowercased self, not to an "unknown"
sentinel, in both role maps. -/
theorem c3_role_normalization_cex :
    Scraper.normRole "utility" = "utility" ∧
    Scraper.normRole "zzz" = "zzz" ∧
    MatchupCalculator.normRole "zzz" = "zzz" ∧
    ("utility" : String) ≠ "support" ∧
    ("zzz" : String) ≠ "unknown" := by decide

/-- C3 (corrected): role normalization is total, pure and case-insensitive
(lowercase then table lookup). The dataset-path table maps the synonyms to
top/jng/mid/bot/sup, the provider-path table to
top/jungle/middle/bottom/support with no "utility" entry, and every string
not in the table maps to its own lowercased form, not to "unknown". -/
theorem c3_role_normalization_amended :
    (∀ s t, lowerStr s = lowerStr t →
      MatchupCalculator.normRole s = MatchupCalculator.normRole t) ∧
    (∀ s t, lowerStr s = lowerStr t → Scraper.normRole s = Scraper.normRole t) ∧
    (MatchupCalculator.normRole "TOP" = "top" ∧
      MatchupCalculator.normRole "jng" = "jng" ∧
      MatchupCalculator.normRole "Jungle" = "jng" ∧
      MatchupCalculator.normRole "mid" = "mid" ∧
      MatchupCalculator.normRole "middle" = "mid" ∧
      MatchupCalculator.normRole "bot" = "bot" ∧
      MatchupCalculator.normRole "ADC" = "bot" ∧
      MatchupCalculator.normRole "bottom" = "bot" ∧
      MatchupCalculator.normRole "sup" = "sup" ∧
      MatchupCalculator.normRole "Support" = "sup" ∧
      MatchupCalculator.normRole "utility" = "sup") ∧
    (Scraper.normRole "Top" = "top" ∧
      Scraper.normRole "jng" = "jungle" ∧
      Scraper.normRole "jungle" = "jungle" ∧
      Scraper.normRole "MID" = "middle" ∧
      Scraper.normRole "middle" = "middle" ∧
      Scraper.normRole "bot" = "bottom" ∧
      Scraper.normRole "adc" = "bottom" ∧
      Scraper.normRole "Bottom" = "bottom" ∧
      Scraper.normRole "sup" = "support" ∧
      Scraper.normRole "support" = "support" ∧
      Scraper.normRole "utility" = "utility") ∧
    (∀ s, lowerStr s ∉ (["top", "jng", "jungle", "mid", "middle", "bot",
        "adc", "bottom", "sup", "support", "utility"] : List String) →
      MatchupCalculator.normRole s = lowerStr s) ∧
    (∀ s, lowerStr s ∉ (["top", "jng", "jungle", "mid", "middle", "bot",
        "adc", "bottom", "sup", "support"] : List String) →
      Scraper.normRole s = lowerStr s) := by
  refine ⟨?_, ?_, by decide, by decide, ?_, ?_⟩
  · intro s t h
    unfold MatchupCalculator.normRole
    rw [h]
  · intro s t h
    unfold Scraper.normRole
    rw [h]
  · intro s h
    simp only [List.mem_cons, List.not_mem_nil, or_false, not_or] at h
    obtain ⟨h1, h2, h3, h4, h5, h6, h7, h8, h9, h10, h11⟩ := h
    simp [MatchupCalculator.normRole, MatchupCalculator.role_map_get,
      h1, h2, h3, h4, h5, h6, h7, h8, h9, h10, h11]
  · intro s h
    simp only [List.mem_cons, List.not_mem_nil, or_false, not_or] at h
    obtain ⟨h1, h2, h3, h4, h5, h6, h7, h8, h9, h10⟩ := h
    simp [Scraper.normRole, Scraper.ROLE_MAP_get,
      h1, h2, h3, h4, h5, h6, h7, h8, h9, h10]

/-- C3 witness: an unrecognized role maps to its lowercased self. -/
theorem c3_role_normalization_witness :
    MatchupCalculator.normRole "Flex" = lowerStr "Flex" :=
  c3_role_normalization_amended.2.2.2.2.1 "Flex" (by decide)

/-- C2 counterexample: the claim fails on the code. Both blind-pick scorers
return 50.0, not 60.0, for a (champion, role) with no matchup profile at all
(empty dataset table; provider data with zero games). -/
theorem c2_blindpick_defaults_cex :
    MatchupCalculator.get_blindpick_score [] "A" "mid" = 50 ∧
    Scraper.get_blindpick_score ⟨[], [], 50, 0, 0, 0⟩ = 50 ∧
    (50 : ℚ) ≠ 60 := by decide

/-- C2 (corrected): the dataset blind-pick scorer returns 50.0 when the
champion has no matchup profile and 60.0 when it has a profile with zero
recorded opposing matchups; the provider blind-pick scorer returns 50.0 when
there is no data (zero analysed games) and 75.0 when there is data but no
weak-against matchups. -/
theorem c2_blindpick_defaults_amended :
    (∀ (table : MatchupCalculator.Table) (champion role : String),
      MatchupCalculator.lookupProfile table champion
        (champion ++ "_" ++ MatchupCalculator.normRole role) = none →
      MatchupCalculator.get_blindpick_score table champion role = 50) ∧
    (∀ (table : MatchupCalculator.Table) (champion role : String),
      MatchupCalculator.lookupProfile table champion
        (champion ++ "_" ++ MatchupCalculator.normRole role) = some [] →
      MatchupCalculator.get_blindpick_score table champion role = 60) ∧
    (∀ data : Scraper.ChampData, data.games = 0 →
      Scraper.get_blindpick_score data = 50) ∧
    (∀ data : Scraper.ChampData, data.games ≠ 0 → data.weak_against = [] →
      Scraper.get_blindpick_score data = 75) := by
  refine ⟨?_, ?_, ?_, ?_⟩
  · intro table champion role h
    unfold MatchupCalculator.get_blindpick_score
    rw [h]
  · intro table champion role h
    unfold MatchupCalculator.get_blindpick_score
    rw [h]
    simp
  · intro data h
    unfold Scraper.get_blindpick_score
    rw [if_pos h]
  · intro data h1 h2
    unfold Scraper.get_blindpick_score
    rw [if_neg h1, if_pos h2]

/-- C2 witness: provider data with games but no weak-against matchups scores
75. -/
theorem c2_blindpick_defaults_witness :
    Scraper.get_blindpick_score ⟨[], [], 50, 0, 0, 10⟩ = 75 :=
  c2_blindpick_defaults_amended.2.2.2 ⟨[], [], 50, 0, 0, 10⟩ (by decide) (by decide)

/-- Sum of getD-50 contributions split into matched winrates and 50 per
missing enemy. -/
theorem aux_getD50_sum (f : String → Option ℚ) :
    ∀ l : List String,
      (l.map (fun e => (f e).getD 50)).sum =
        (l.filterMap f).sum + 50 * ((l.length : ℚ) - (l.filterMap f).length)
  | [] => by simp
  | a :: l => by
    cases hfa : f a <;>
      simp [List.filterMap_cons, hfa, aux_getD50_sum f l, Nat.cast_succ] <;>
      push_cast <;> ring

/-- C1 counterexample: the claim fails on the dataset-path counter score. With
one matchup record (winrate 48) and two enemies of which one has no record,
the code averages over the single matched enemy (score 30), while the claimed
formula (48 + 50)/2 gives score 40. -/
theorem c1_counter_missing_enemy_cex :
    MatchupCalculator.get_counter_score
      [("A_mid", [("E1_mid", ⟨5, 10, 48⟩)])] "A" "mid" ["E1", "E2"] = 30 ∧
    max 0 (min 100 ((((48 : ℚ) + 50 * (2 - 1)) / 2 - 45) * 10)) = 40 ∧
    (30 : ℚ) ≠ 40 := by
  refine ⟨?_, by norm_num, by norm_num⟩
  simp +decide [MatchupCalculator.get_counter_score,
    MatchupCalculator.lookupProfile, MatchupCalculator.matchedWinrates,
    MatchupCalculator.normRole, MatchupCalculator.role_map_get,
    lowerStr, lowerChar, pyStartsWith]
  norm_num

/-- C1 (corrected): in the provider-backed counter score, every enemy without
a matchup record contributes a neutral 50 to the average and the denominator
is the full enemy count k, giving pre-rescale average
(w1+...+wm + 50*(k-m))/k. In the dataset-backed counter score a record-less
enemy is instead dropped from both numerator and denominator: appending such
an enemy leaves the score unchanged (and never aborts it). -/
theorem c1_counter_missing_enemy_amended :
    (∀ (data : Scraper.ChampData) (enemies : List String),
      enemies ≠ [] → data.games ≠ 0 →
      Scraper.get_counter_score data enemies =
        max 0 (min 100 ((((enemies.filterMap (Scraper.lookupWr data)).sum +
          50 * ((enemies.length : ℚ) -
            (enemies.filterMap (Scraper.lookupWr data)).length)) /
          (enemies.length : ℚ) - 45) * 10))) ∧
    (∀ (table : MatchupCalculator.Table) (champion role e : String)
      (enemies : List String)
      (vs : List (String × MatchupCalculator.MatchupRec)),
      MatchupCalculator.lookupProfile table champion
        (champion ++ "_" ++ MatchupCalculator.normRole role) = some vs →
      vs.find? (fun p => pyStartsWith p.1 (e ++ "_")) = none →
      MatchupCalculator.get_counter_score table champion role (enemies ++ [e]) =
        MatchupCalculator.get_counter_score table champion role enemies) := by
  constructor
  · intro data enemies h1 h2
    unfold Scraper.get_counter_score
    rw [if_neg h1, if_neg h2, if_neg (by simpa using h1)]
    rw [aux_getD50_sum (Scraper.lookupWr data) enemies]
    simp
  · intro table champion role e enemies vs hvs hnone
    have hmw : MatchupCalculator.matchedWinrates vs (enemies ++ [e]) =
        MatchupCalculator.matchedWinrates vs enemies := by
      unfold MatchupCalculator.matchedWinrates
      rw [List.filterMap_append]
      simp [hnone]
    rcases Classical.em (enemies = []) with he | he
    · subst he
      simp only [MatchupCalculator.get_counter_score, hvs, hmw, List.nil_append]
      simp [MatchupCalculator.matchedWinrates, hnone]
    · simp only [MatchupCalculator.get_counter_score, hvs, hmw]
      rw [if_neg (by simp : ¬(enemies ++ [e] = [])), if_neg he]

/-- C1 witness: the provider-path formula applied to concrete data with one
matched and one missing enemy. -/
theorem c1_counter_missing_enemy_witness :
    Scraper.get_counter_score ⟨[⟨"D", 47, 200⟩], [], 52, 3, 1, 1000⟩ ["D", "X"] =
      max 0 (min 100 ((((["D", "X"].filterMap
          (Scraper.lookupWr ⟨[⟨"D", 47, 200⟩], [], 52, 3, 1, 1000⟩)).sum +
        50 * (((["D", "X"] : List String).length : ℚ) -
          (["D", "X"].filterMap
            (Scraper.lookupWr ⟨[⟨"D", 47, 200⟩], [], 52, 3, 1, 1000⟩)).length)) /
        ((["D", "X"] : List String).length : ℚ) - 45) * 10)) :=
  c1_counter_missing_enemy_amended.1 ⟨[⟨"D", 47, 200⟩], [], 52, 3, 1, 1000⟩
    ["D", "X"] (by decide) (by decide)

/-- C8 (confirmed): whenever a per-enemy average winrate is computed, both
counter scorers return max(0, min(100, (avg - 45) * 10)). -/
theorem c8_counter_rescale :
    (∀ (table : MatchupCalculator.Table) (champion role : String)
      (enemies : List String)
      (vs : List (String × MatchupCalculator.MatchupRec)),
      enemies ≠ [] →
      MatchupCalculator.lookupProfile table champion
        (champion ++ "_" ++ MatchupCalculator.normRole role) = some vs →
      MatchupCalculator.matchedWinrates vs enemies ≠ [] →
      MatchupCalculator.get_counter_score table champion role enemies =
        max 0 (min 100 (((MatchupCalculator.matchedWinrates vs enemies).sum /
          ((MatchupCalculator.matchedWinrates vs enemies).length : ℚ) - 45) * 10))) ∧
    (∀ (data : Scraper.ChampData) (enemies : List String),
      enemies ≠ [] → data.games ≠ 0 →
      Scraper.get_counter_score data enemies =
        max 0 (min 100 (((enemies.map
          (fun e => (Scraper.lookupWr data e).getD 50)).sum /
          ((enemies.length : ℚ)) - 45) * 10))) := by
  constructor
  · intro table champion role enemies vs h1 hvs h2
    have hvsne : vs ≠ [] := by
      intro hv
      apply h2
      subst hv
      simp [MatchupCalculator.matchedWinrates]
    simp only [MatchupCalculator.get_counter_score, hvs]
    rw [if_neg h1, if_neg hvsne,
      if_neg (by simpa using h2 : ¬(MatchupCalculator.matchedWinrates vs enemies).length = 0)]
  · intro data enemies h1 h2
    unfold Scraper.get_counter_score
    rw [if_neg h1, if_neg h2, if_neg (by simpa using h1)]
    rw [List.length_map]

/-- C8 witness: the dataset rescale at a concrete table with one matched
enemy of winrate 48. -/
theorem c8_counter_rescale_witness :
    MatchupCalculator.get_counter_score
      [("A_mid", [("E1_mid", ⟨5, 10, 48⟩)])] "A" "mid" ["E1"] =
      max 0 (min 100 (((MatchupCalculator.matchedWinrates
          [("E1_mid", ⟨5, 10, 48⟩)] ["E1"]).sum /
        ((MatchupCalculator.matchedWinrates
          [("E1_mid", ⟨5, 10, 48⟩)] ["E1"]).length : ℚ) - 45) * 10)) :=
  c8_counter_rescale.1 [("A_mid", [("E1_mid", ⟨5, 10, 48⟩)])] "A" "mid" ["E1"]
    [("E1_mid", ⟨5, 10, 48⟩)] (by decide) (by decide) (by decide)


namespace MatchupCalculator

/-- Pointwise effect of one counter bump on the games field. -/
theorem aux_bump_games (t : RawTable) (k : String × String) (won : Bool)
    (k' : String × String) :
    ((bumpPair t k won) k').games = (t k').games + (if k' = k then 1 else 0) := by
  unfold bumpPair
  split_ifs with h <;> simp [h]

/-- Pointwise effect of one counter bump on the wins field. -/
theorem aux_bump_wins (t : RawTable) (k : String × String) (won : Bool)
    (k' : String × String) :
    ((bumpPair t k won) k').wins =
      (t k').wins + (if k' = k then (if won then 1 else 0) else 0) := by
  unfold bumpPair
  split_ifs with h <;> simp [h]

/-- Games added by the inner loop at one key. -/
theorem aux_vsTeam_games (me : Pick) (won : Bool) (ka kb : String) :
    ∀ (opps : List Pick) (t : RawTable),
      ((vsTeam t me opps won) (ka, kb)).games =
        (t (ka, kb)).games + (if ka = pkey me then cnt opps kb else 0)
  | [], t => by simp [vsTeam, cnt]
  | o :: os, t => by
    have ih := aux_vsTeam_games me won ka kb os (bumpPair t (pkey me, pkey o) won)
    simp only [vsTeam, List.foldl_cons] at ih ⊢
    rw [ih, aux_bump_games]
    simp only [Prod.mk.injEq, cnt, List.countP_cons, beq_iff_eq,
      show (ka = pkey me) ↔ (pkey me = ka) from eq_comm,
      show (kb = pkey o) ↔ (pkey o = kb) from eq_comm]
    split_ifs <;> first | omega | tauto

/-- Wins added by the inner loop at one key. -/
theorem aux_vsTeam_wins (me : Pick) (won : Bool) (ka kb : String) :
    ∀ (opps : List Pick) (t : RawTable),
      ((vsTeam t me opps won) (ka, kb)).wins =
        (t (ka, kb)).wins +
          (if won then (if ka = pkey me then cnt opps kb else 0) else 0)
  | [], t => by cases won <;> simp [vsTeam, cnt]
  | o :: os, t => by
    have ih := aux_vsTeam_wins me won ka kb os (bumpPair t (pkey me, pkey o) won)
    simp only [vsTeam, List.foldl_cons] at ih ⊢
    rw [ih, aux_bump_wins]
    simp only [Prod.mk.injEq, cnt, List.countP_cons, beq_iff_eq,
      show (ka = pkey me) ↔ (pkey me = ka) from eq_comm,
      show (kb = pkey o) ↔ (pkey o = kb) from eq_comm]
    cases won <;> split_ifs <;> first | omega | tauto

/-- Games added by the outer loop at one key. -/
theorem aux_team_games (opps : List Pick) (won : Bool) (ka kb : String) :
    ∀ (team : List Pick) (t : RawTable),
      ((teamVsTeam t team opps won) (ka, kb)).games =
        (t (ka, kb)).games + cnt team ka * cnt opps kb
  | [], t => by simp [teamVsTeam, cnt]
  | me :: rest, t => by
    have ih := aux_team_games opps won ka kb rest (vsTeam t me opps won)
    simp only [teamVsTeam, List.foldl_cons] at ih ⊢
    rw [ih, aux_vsTeam_games]
    simp only [cnt, List.countP_cons, beq_iff_eq,
      show (ka = pkey me) ↔ (pkey me = ka) from eq_comm]
    split_ifs <;> ring

/-- Wins added by the outer loop at one key. -/
theorem aux_team_wins (opps : List Pick) (won : Bool) (ka kb : String) :
    ∀ (team : List Pick) (t : RawTable),
      ((teamVsTeam t team opps won) (ka, kb)).wins =
        (t (ka, kb)).wins + (if won then cnt team ka * cnt opps kb else 0)
  | [], t => by cases won <;> simp [teamVsTeam, cnt]
  | me :: rest, t => by
    have ih := aux_team_wins opps won ka kb rest (vsTeam t me opps won)
    simp only [teamVsTeam, List.foldl_cons] at ih ⊢
    rw [ih, aux_vsTeam_wins]
    simp only [cnt, List.countP_cons, beq_iff_eq,
      show (ka = pkey me) ↔ (pkey me = ka) from eq_comm]
    cases won <;> split_ifs <;> first | ring | tauto

/-- Games added by one full game. -/
theorem aux_processGame_games (t : RawTable) (g : Game) (k : String × String) :
    ((processGame t g) k).games = (t k).games + gameObs g k := by
  obtain ⟨ka, kb⟩ := k
  unfold processGame gameObs
  rw [aux_team_games, aux_team_games]
  ring

/-- Wins added by one full game. -/
theorem aux_processGame_wins (t : RawTable) (g : Game) (k : String × String) :
    ((processGame t g) k).wins = (t k).wins + gameWins g k := by
  obtain ⟨ka, kb⟩ := k
  unfold processGame gameWins
  rw [aux_team_wins, aux_team_wins]
  cases hw : g.team1Won <;> simp

/-- The aggregation fold counts exactly the observed games. -/
theorem aux_foldl_games (k : String × String) :
    ∀ (gs : List Game) (t : RawTable),
      ((gs.foldl processGame t) k).games = (t k).games + obsGames gs k
  | [], t => by simp [obsGames]
  | g :: gs, t => by
    rw [List.foldl_cons, aux_foldl_games k gs, aux_processGame_games]
    simp only [obsGames, List.map_cons, List.sum_cons]
    omega

/-- The aggregation fold counts exactly the observed wins. -/
theorem aux_foldl_wins (k : String × String) :
    ∀ (gs : List Game) (t : RawTable),
      ((gs.foldl processGame t) k).wins = (t k).wins + obsWins gs k
  | [], t => by simp [obsWins]
  | g :: gs, t => by
    rw [List.foldl_cons, aux_foldl_wins k gs, aux_processGame_wins]
    simp only [obsWins, List.map_cons, List.sum_cons]
    omega

/-- The raw table holds the observed games count. -/
theorem aux_buildRaw_games (gs : List Game) (k : String × String) :
    (buildRaw gs k).games = obsGames gs k := by
  unfold buildRaw
  rw [aux_foldl_games]
  simp

/-- The raw table holds the observed wins count. -/
theorem aux_buildRaw_wins (gs : List Game) (k : String × String) :
    (buildRaw gs k).wins = obsWins gs k := by
  unfold buildRaw
  rw [aux_foldl_wins]
  simp

end MatchupCalculator

/-- C5 (confirmed): any pair observed fewer than 5 times never appears in the
built table, and every retained record carries the exact observed counts with
winrate equal to 100 * wins / games rounded to one decimal. -/
theorem c5_significance_floor (gs : List MatchupCalculator.Game)
    (k : String × String) :
    (MatchupCalculator.obsGames gs k < 5 →
      MatchupCalculator.buildTable gs k = none) ∧
    (∀ r : MatchupCalculator.MatchupRec,
      MatchupCalculator.buildTable gs k = some r →
      5 ≤ MatchupCalculator.obsGames gs k ∧
      r.wins = MatchupCalculator.obsWins gs k ∧
      r.games = MatchupCalculator.obsGames gs k ∧
      r.winrate = round1 (100 * (r.wins : ℚ) / (r.games : ℚ))) := by
  have hg := MatchupCalculator.aux_buildRaw_games gs k
  have hw := MatchupCalculator.aux_buildRaw_wins gs k
  constructor
  · intro h
    simp only [MatchupCalculator.buildTable]
    rw [if_neg]
    omega
  · intro r hr
    simp only [MatchupCalculator.buildTable] at hr
    split_ifs at hr with h5
    · cases hr
      refine ⟨by omega, hw, hg, ?_⟩
      simp only [hw, hg]
      congr 1
      ring

/-- C5 witness: a single observed game is below the floor, so its pair is
absent from the built table. -/
theorem c5_significance_floor_witness :
    MatchupCalculator.buildTable
      [⟨[⟨"A", "top"⟩], [⟨"B", "mid"⟩], true⟩] ("A_top", "B_mid") = none :=
  (c5_significance_floor [⟨[⟨"A", "top"⟩], [⟨"B", "mid"⟩], true⟩]
    ("A_top", "B_mid")).1 (by decide)

/-- Round half to even of an integer plus a fractional part in [0, 1). -/
theorem aux_rhe_int_add (m : ℤ) (f : ℚ) (h0 : 0 ≤ f) (h1 : f < 1) :
    roundHalfEven ((m : ℚ) + f) =
      if f < 1/2 then m else if 1/2 < f then m + 1
      else if 2 ∣ m then m else m + 1 := by
  have hfl : ⌊(m : ℚ) + f⌋ = m := by
    rw [Int.floor_int_add, Int.floor_eq_zero_iff.mpr (Set.mem_Ico.mpr ⟨h0, h1⟩)]
    omega
  unfold roundHalfEven
  rw [hfl, show (m : ℚ) + f - (m : ℚ) = f from by ring]

/-- Round half to even of complementary values about 1000 sums to 1000 (1000
is even, so the two half-way ties pick parities that cancel). -/
theorem aux_rhe_sum_1000 (q : ℚ) :
    roundHalfEven q + roundHalfEven (1000 - q) = 1000 := by
  set m := ⌊q⌋ with hm
  set f := Int.fract q with hf
  have hq : q = (m : ℚ) + f := (Int.floor_add_fract q).symm
  have hf0 : 0 ≤ f := Int.fract_nonneg q
  have hf1 : f < 1 := Int.fract_lt_one q
  rcases eq_or_lt_of_le hf0 with hz | hpos
  · rw [show (1000 : ℚ) - q = ((1000 - m : ℤ) : ℚ) + 0 from by
        rw [hq, ← hz]; push_cast; ring,
      show q = (m : ℚ) + 0 from by rw [hq, ← hz],
      aux_rhe_int_add m 0 le_rfl one_pos,
      aux_rhe_int_add (1000 - m) 0 le_rfl one_pos]
    norm_num
  · rw [show (1000 : ℚ) - q = ((999 - m : ℤ) : ℚ) + (1 - f) from by
        rw [hq]; push_cast; ring,
      hq, aux_rhe_int_add m f hf0 hf1,
      aux_rhe_int_add (999 - m) (1 - f) (by linarith) (by linarith)]
    rcases lt_trichotomy f (1/2) with hlt | heq | hgt
    · rw [if_pos hlt,
        if_neg (show ¬((1 : ℚ) - f < 1/2) from by linarith),
        if_pos (show (1 : ℚ)/2 < 1 - f from by linarith)]
      omega
    · rw [if_neg (show ¬(f < 1/2) from by linarith),
        if_neg (show ¬((1 : ℚ)/2 < f) from by linarith),
        if_neg (show ¬((1 : ℚ) - f < 1/2) from by linarith),
        if_neg (show ¬((1 : ℚ)/2 < 1 - f) from by linarith)]
      by_cases hp : (2 : ℤ) ∣ m
      · rw [if_pos hp, if_neg (show ¬((2 : ℤ) ∣ (999 - m)) from by omega)]
        omega
      · rw [if_neg hp, if_pos (show (2 : ℤ) ∣ (999 - m) from by omega)]
        omega
    · rw [if_neg (show ¬(f < 1/2) from by linarith), if_pos hgt,
        if_pos (show (1 : ℚ) - f < 1/2 from by linarith)]
      omega

/-- Complementary winrates rounded to one decimal sum to exactly 100. -/
theorem aux_round1_complement (w1 w2 g : Nat) (hg : g ≠ 0)
    (hsum : w1 + w2 = g) :
    round1 ((w1 : ℚ) / g * 100) + round1 ((w2 : ℚ) / g * 100) = 100 := by
  have hgq : (g : ℚ) ≠ 0 := Nat.cast_ne_zero.mpr hg
  have hw2 : (w2 : ℚ) = (g : ℚ) - w1 := by
    have hc := congrArg (Nat.cast : Nat → ℚ) hsum
    push_cast at hc
    linarith
  unfold round1
  rw [show (w2 : ℚ) / g * 100 * 10 = 1000 - (w1 : ℚ) / g * 100 * 10 from by
    rw [hw2]; field_simp; ring]
  rw [div_add_div_same, ← Int.cast_add, aux_rhe_sum_1000]
  norm_num

/-- C10 (confirmed): the aggregation is symmetric per game (the reverse pair
is accumulated from the same game with equal games and complementary wins),
so in the raw table games(A,B) = games(B,A) and wins(A,B) + wins(B,A) =
games(A,B); consequently a matchup and its reverse are both dropped or both
retained by the significance floor, and retained winrates sum to 100. -/
theorem c10_matchup_symmetry (gs : List MatchupCalculator.Game)
    (a b : String) :
    (∀ (t : MatchupCalculator.RawTable) (g : MatchupCalculator.Game),
      ((MatchupCalculator.processGame t g) (a, b)).games =
        (t (a, b)).games + MatchupCalculator.gameObs g (a, b)) ∧
    (∀ g, MatchupCalculator.gameObs g (a, b) =
      MatchupCalculator.gameObs g (b, a)) ∧
    (∀ g, MatchupCalculator.gameWins g (a, b) +
      MatchupCalculator.gameWins g (b, a) =
      MatchupCalculator.gameObs g (a, b)) ∧
    (MatchupCalculator.buildRaw gs (a, b)).games =
      (MatchupCalculator.buildRaw gs (b, a)).games ∧
    (MatchupCalculator.buildRaw gs (a, b)).wins +
      (MatchupCalculator.buildRaw gs (b, a)).wins =
      (MatchupCalculator.buildRaw gs (a, b)).games ∧
    (MatchupCalculator.buildTable gs (a, b) = none ↔
      MatchupCalculator.buildTable gs (b, a) = none) ∧
    (∀ r1 r2 : MatchupCalculator.MatchupRec,
      MatchupCalculator.buildTable gs (a, b) = some r1 →
      MatchupCalculator.buildTable gs (b, a) = some r2 →
      r1.winrate + r2.winrate = 100) := by
  have hobs : ∀ g, MatchupCalculator.gameObs g (a, b) =
      MatchupCalculator.gameObs g (b, a) := by
    intro g
    unfold MatchupCalculator.gameObs
    ring
  have hwins : ∀ g, MatchupCalculator.gameWins g (a, b) +
      MatchupCalculator.gameWins g (b, a) =
      MatchupCalculator.gameObs g (a, b) := by
    intro g
    unfold MatchupCalculator.gameWins MatchupCalculator.gameObs
    cases g.team1Won <;> simp <;> ring
  have hG : ∀ gs' : List MatchupCalculator.Game,
      MatchupCalculator.obsGames gs' (a, b) =
        MatchupCalculator.obsGames gs' (b, a) := by
    intro gs'
    induction gs' with
    | nil => rfl
    | cons g t ih =>
      simp only [MatchupCalculator.obsGames, List.map_cons, List.sum_cons] at ih ⊢
      rw [hobs g, ih]
  have hW : ∀ gs' : List MatchupCalculator.Game,
      MatchupCalculator.obsWins gs' (a, b) +
        MatchupCalculator.obsWins gs' (b, a) =
        MatchupCalculator.obsGames gs' (a, b) := by
    intro gs'
    induction gs' with
    | nil => rfl
    | cons g t ih =>
      simp only [MatchupCalculator.obsWins, MatchupCalculator.obsGames,
        List.map_cons, List.sum_cons] at ih ⊢
      have hg := hwins g
      omega
  have hgames : (MatchupCalculator.buildRaw gs (a, b)).games =
      (MatchupCalculator.buildRaw gs (b, a)).games := by
    rw [MatchupCalculator.aux_buildRaw_games, MatchupCalculator.aux_buildRaw_games]
    exact hG gs
  have hsum : (MatchupCalculator.buildRaw gs (a, b)).wins +
      (MatchupCalculator.buildRaw gs (b, a)).wins =
      (MatchupCalculator.buildRaw gs (a, b)).games := by
    rw [MatchupCalculator.aux_buildRaw_wins, MatchupCalculator.aux_buildRaw_wins,
      MatchupCalculator.aux_buildRaw_games]
    exact hW gs
  refine ⟨fun t g => MatchupCalculator.aux_processGame_games t g (a, b),
    hobs, hwins, hgames, hsum, ?_, ?_⟩
  · simp only [MatchupCalculator.buildTable]
    rw [hgames]
    by_cases h5 : 5 ≤ (MatchupCalculator.buildRaw gs (b, a)).games <;> simp [h5]
  · intro r1 r2 h1 h2
    simp only [MatchupCalculator.buildTable] at h1 h2
    split_ifs at h1 h2 with ha hb
    cases h1
    cases h2
    simp only
    rw [show ((MatchupCalculator.buildRaw gs (b, a)).games : ℚ) =
      ((MatchupCalculator.buildRaw gs (a, b)).games : ℚ) from by rw [hgames]]
    exact aux_round1_complement _ _ _ (by omega) hsum

/-- C10 witness: five copies of the same game retain both directions of the
pair, with winrates 100 and 0 summing to 100. -/
theorem c10_matchup_symmetry_witness :
    (⟨5, 5, 100⟩ : MatchupCalculator.MatchupRec).winrate +
      (⟨0, 5, 0⟩ : MatchupCalculator.MatchupRec).winrate = 100 :=
  (c10_matchup_symmetry
    (List.replicate 5 ⟨[⟨"A", "top"⟩], [⟨"B", "mid"⟩], true⟩)
    "A_top" "B_mid").2.2.2.2.2.2 ⟨5, 5, 100⟩ ⟨0, 5, 0⟩
    (by
      have h : MatchupCalculator.buildRaw
          (List.replicate 5 ⟨[⟨"A", "top"⟩], [⟨"B", "mid"⟩], true⟩)
          ("A_top", "B_mid") = ⟨5, 5⟩ := by decide
      simp only [MatchupCalculator.buildTable, h]
      norm_num [round1, roundHalfEven])
    (by
      have h : MatchupCalculator.buildRaw
          (List.replicate 5 ⟨[⟨"A", "top"⟩], [⟨"B", "mid"⟩], true⟩)
          ("B_mid", "A_top") = ⟨0, 5⟩ := by decide
      simp only [MatchupCalculator.buildTable, h]
      norm_num [round1, roundHalfEven])

/-- C4 counterexample: the claim fails on the code. With 31 proficiency
records where only the 31st holds the largest points value, the
normalization constant is 1000 (max over all records), not 100 (max over
the 30 candidates actually scored). -/
theorem c4_max_points_cex :
    Recommender.recMaxPoints
      (List.replicate 30 (⟨"A", 1, 100⟩ : Recommender.Mastery) ++ ([⟨"B", 1, 1000⟩] : List Recommender.Mastery)) = 1000 ∧
    max 1 ((((List.replicate 30 (⟨"A", 1, 100⟩ : Recommender.Mastery) ++
      ([⟨"B", 1, 1000⟩] : List Recommender.Mastery)).take 30).map
        Recommender.Mastery.champion_points).foldl Nat.max 0) = 100 ∧
    (1000 : Nat) ≠ 100 := by decide

/-- C4 (corrected): the normalization constant is max(1, maximum
champion_points over the entire proficiency list), computed once before the
loop; only the first 30 records are scored, so records beyond the 30th
influence the output only through this constant. -/
theorem c4_max_points_amended :
    (∀ ms : List Recommender.Mastery, ms ≠ [] →
      Recommender.recMaxPoints ms =
        max 1 ((ms.map Recommender.Mastery.champion_points).foldl Nat.max 0)) ∧
    (∀ (o : Recommender.Oracles) (ms1 ms2 : List Recommender.Mastery)
      (role : String) (top_n : Nat) (mw mew cw mpr : ℚ)
      (enemy ally banned : List String) (mode : String),
      ms1.take 30 = ms2.take 30 →
      Recommender.recMaxPoints ms1 = Recommender.recMaxPoints ms2 →
      Recommender.get_recommendations o ms1 role top_n mw mew cw mpr
        enemy ally banned mode =
      Recommender.get_recommendations o ms2 role top_n mw mew cw mpr
        enemy ally banned mode) := by
  have key : ∀ u v : List Recommender.Mastery,
      u.take 30 = v.take 30 → u = [] → v = [] := by
    intro u v huv hu
    subst hu
    rcases List.take_eq_nil_iff.mp huv.symm with h | h
    · omega
    · exact h
  constructor
  · intro ms h
    unfold Recommender.recMaxPoints
    rw [if_neg (by simpa using h)]
    exact Nat.max_comm _ _
  · intro o ms1 ms2 role top_n mw mew cw mpr enemy ally banned mode ht hmp
    unfold Recommender.get_recommendations
    rcases Classical.em (ms1 = []) with h1 | h1
    · rw [if_pos h1, if_pos (key ms1 ms2 ht h1)]
    · rw [if_neg h1, if_neg (fun h2 => h1 (key ms2 ms1 ht.symm h2)), ht, hmp]

/-- C4 witness: two 31-record lists agreeing on their first 30 records and on
the full-list maximum produce identical recommendations. -/
theorem c4_max_points_witness :
    Recommender.get_recommendations
      ⟨fun _ _ => ⟨50, 5, 0⟩, fun _ _ _ => 50, fun _ _ => 50⟩
      (List.replicate 30 (⟨"A", 1, 100⟩ : Recommender.Mastery) ++ ([⟨"B", 1, 1000⟩] : List Recommender.Mastery)) "mid" 5
      0.25 0.30 0.45 0.5 [] [] [] "balanced" =
    Recommender.get_recommendations
      ⟨fun _ _ => ⟨50, 5, 0⟩, fun _ _ _ => 50, fun _ _ => 50⟩
      (List.replicate 30 (⟨"A", 1, 100⟩ : Recommender.Mastery) ++ ([⟨"C", 2, 1000⟩] : List Recommender.Mastery)) "mid" 5
      0.25 0.30 0.45 0.5 [] [] [] "balanced" :=
  c4_max_points_amended.2
    (⟨fun _ _ => ⟨50, 5, 0⟩, fun _ _ _ => 50, fun _ _ => 50⟩ : Recommender.Oracles)
    (List.replicate 30 (⟨"A", 1, 100⟩ : Recommender.Mastery) ++ ([⟨"B", 1, 1000⟩] : List Recommender.Mastery))
    (List.replicate 30 (⟨"A", 1, 100⟩ : Recommender.Mastery) ++ ([⟨"C", 2, 1000⟩] : List Recommender.Mastery))
    "mid" 5 0.25 0.30 0.45 0.5 [] [] [] "balanced" (by decide) (by decide)

/-- A produced recommendation carries the candidate name, which passed the
exclusion filter. -/
theorem aux_scoreOne_champion (o : Recommender.Oracles) (role : String)
    (mw mew cw mpr : ℚ) (excluded : List String) (maxp : Nat)
    (enemies : List String) (mode : String) (m : Recommender.Mastery)
    (r : Recommender.RecItem)
    (h : Recommender.scoreOne o role mw mew cw mpr excluded maxp enemies mode m
      = some r) :
    r.champion = m.champion_name ∧ lowerStr m.champion_name ∉ excluded := by
  simp only [Recommender.scoreOne] at h
  by_cases hc1 : m.champion_name = ""
  · rw [if_pos hc1] at h
    exact absurd h (by simp)
  rw [if_neg hc1] at h
  by_cases hc2 : lowerStr m.champion_name ∈ excluded
  · rw [if_pos hc2] at h
    exact absurd h (by simp)
  rw [if_neg hc2] at h
  by_cases hc3 : (o.stats m.champion_name role).pickrate < mpr
  · rw [if_pos hc3] at h
    exact absurd h (by simp)
  rw [if_neg hc3] at h
  injection h with h'
  subst h'
  exact ⟨rfl, hc2⟩

/-- C7 (confirmed): a candidate whose champion name is case-insensitively in
enemy, ally or banned is never returned by get_recommendations, whatever it
would have scored. -/
theorem c7_exclusion (o : Recommender.Oracles)
    (masteries : List Recommender.Mastery) (role : String) (top_n : Nat)
    (mw mew cw mpr : ℚ) (enemy ally banned : List String) (mode : String)
    (r : Recommender.RecItem)
    (hr : r ∈ Recommender.get_recommendations o masteries role top_n
      mw mew cw mpr enemy ally banned mode) :
    lowerStr r.champion ∉ (enemy ++ ally ++ banned).map lowerStr := by
  simp only [Recommender.get_recommendations] at hr
  split_ifs at hr with h1 h2
  · simp at hr
  · simp at hr
  · obtain ⟨m, hm, hsc⟩ := List.mem_filterMap.mp
      ((List.perm_insertionSort _ _).mem_iff.mp (List.mem_of_mem_take hr))
    obtain ⟨hch, hnot⟩ := aux_scoreOne_champion _ _ _ _ _ _ _ _ _ _ _ _ hsc
    rw [hch]
    exact hnot

/-- C7 witness: a concrete run whose single returned recommendation (for
Ashe, with Thresh as the enemy) is not among the excluded names. -/
theorem c7_exclusion_witness :
    lowerStr (⟨"Ashe", "mid", 23/40, 50, 0, "B", 7, 500, 50, none, 1000,
        "M7", "balanced"⟩ : Recommender.RecItem).champion ∉
      ((["Thresh"] ++ [] ++ []).map lowerStr) :=
  c7_exclusion ⟨fun _ _ => ⟨50, 5, 1000⟩, fun _ _ _ => 50, fun _ _ => 50⟩
    [⟨"Ashe", 7, 500⟩] "mid" 5 0.25 0.30 0.45 0.5 ["Thresh"] [] [] "balanced"
    ⟨"Ashe", "mid", 23/40, 50, 0, "B", 7, 500, 50, none, 1000, "M7", "balanced"⟩
    (by
      simp +decide only [Recommender.get_recommendations, Recommender.scoreOne,
        Recommender.selectWeights, Recommender.recMaxPoints,
        Recommender.calculate_tier, lowerStr, lowerChar,
        List.insertionSort, List.orderedInsert, List.filterMap, List.take,
        List.isEmpty, List.mem_singleton]
      norm_num [round3, round1, roundHalfEven]
      decide)
